import Mathlib

/-!
Verification of the two maintenance scripts of this repository against their
specification.

Pipeline A (`mri_image_management/delete_assessors.py`): deletion of assessor
records from an XNAT imaging archive, either for given subjects or when the
record's subject/session labels disagree with the tokens of its own label.

Pipeline B (`mri_segmentation/mri_t1_segmentation_overlay.py`): conversion of
3D MRI volumes and their voxel-level segmentations into 2D slice images with
label sidecar files and a line-delimited JSON dataset manifest.

The archive and the filesystem are modelled explicitly (lists of records,
functions from paths to directory listings / file contents); all functions are
structurally recursive so that concrete runs evaluate inside the kernel.
-/

namespace Cleanup

/-- An assessor record as returned by the archive listing: the four fields the
cleanup script reads (`project_id`, `subject_label`, `session_label`, `label`). -/
structure Assessor where
  project_id : String
  subject_label : String
  session_label : String
  label : String
  deriving DecidableEq

/-- Whether a stored record matches the four-part key (project, subject,
session, assessor label) used by `xnat.select_assessor`. -/
def matchesKey (a : Assessor) (p s e l : String) : Bool :=
  decide (a.project_id = p ∧ a.subject_label = s ∧ a.session_label = e ∧ a.label = l)

/-- The archive interface state: the stored assessor records together with the
number of consecutive `ReadTimeout` responses the archive will serve before
answering normally. -/
structure Xnat where
  assessors : List Assessor
  timeouts : Nat
  deriving DecidableEq

/-- Model of `xnat.select_assessor(...).exists()`: whether a record with the
given four-part key is stored. -/
def select_exists (st : List Assessor) (p s e l : String) : Bool :=
  st.any (fun a => matchesKey a p s e l)

/-- Fuel-indexed body of `delete_assessor` (source lines 44-52); the fuel is the
number of `ReadTimeout`s still pending.  With no pending timeout the lookup
answers: if the assessor exists it is deleted and Python `True` (`some true`) is
returned, otherwise `some false`.  On a timeout the function prints, re-invokes
itself, DISCARDS the retried call's value, and falls off the `except` block, so
the call returns Python `None` (`none`). -/
def deleteAssessorGo : Nat → List Assessor → String → String → String → String →
    List Assessor × Option Bool
  | 0, st, p, s, e, l =>
    if select_exists st p s e l then
      (st.filter (fun a => ! matchesKey a p s e l), some true)
    else (st, some false)
  | t + 1, st, p, s, e, l => ((deleteAssessorGo t st p s e l).1, none)

/-- `delete_assessor(xnat, proj, subj, sess, assr)` (source lines 28-52) over
the archive model. -/
def delete_assessor (x : Xnat) (p s e l : String) : Xnat × Option Bool :=
  (⟨(deleteAssessorGo x.timeouts x.assessors p s e l).1, 0⟩,
   (deleteAssessorGo x.timeouts x.assessors p s e l).2)

/-- `delete_assessors(xnat, assessors_to_delete)` (source lines 55-72): walks
the list in input order; an item is reported deleted exactly when
`delete_assessor` returned Python `True`; both `False` and `None` take the
`Failed to delete` branch.  Returns the final archive state and the per-item
success reports in order. -/
def delete_assessors_run (x : Xnat) : List Assessor → Xnat × List Bool
  | [] => (x, [])
  | s :: rest =>
    let step := delete_assessor x s.project_id s.subject_label s.session_label s.label
    let restRun := delete_assessors_run step.1 rest
    (restRun.1, decide (step.2 = some true) :: restRun.2)

/-- Model of `xnat.list_project_assessors(proj)`: the stored records of one
project. -/
def list_project_assessors (st : List Assessor) (proj : String) : List Assessor :=
  st.filter (fun a => decide (a.project_id = proj))

/-- The token `label.split('-x-')[n]` of an assessor's own label; `none` when
the label has too few `-x-`-separated tokens, where the Python expression would
raise `IndexError` and abort.  Well-formed archive labels have four tokens
(`project-x-subject-x-session-x-type`), on which this agrees with the source. -/
def tokenAt (a : Assessor) (n : Nat) : Option String :=
  (a.label.splitOn "-x-")[n]?

/-- The subject check of `delete_orphaned_assessors` (source lines 110-111). -/
def subjMismatch (a : Assessor) : Bool :=
  decide (tokenAt a 1 ≠ some a.subject_label)

/-- The session check of `delete_orphaned_assessors` (source lines 112-113). -/
def sessMismatch (a : Assessor) : Bool :=
  decide (tokenAt a 2 ≠ some a.session_label)

/-- `subj_delete` (source lines 110-111). -/
def subj_delete (l : List Assessor) : List Assessor := l.filter subjMismatch

/-- `sess_delete` (source lines 112-113). -/
def sess_delete (l : List Assessor) : List Assessor := l.filter sessMismatch

/-- `assessors_to_delete = subj_delete + sess_delete` (source line 114): a
literal list concatenation, not a deduplicated set union. -/
def orphan_candidates (l : List Assessor) : List Assessor :=
  subj_delete l ++ sess_delete l

/-- `delete_orphaned_assessors(xnat, projects)` (source lines 94-115): per
project, list the assessors, build the orphan candidate list and run the batch
deleter; reports of all projects are concatenated in order. -/
def delete_orphaned_run (x : Xnat) : List String → Xnat × List Bool
  | [] => (x, [])
  | p :: rest =>
    let projRun :=
      delete_assessors_run x (orphan_candidates (list_project_assessors x.assessors p))
    let restRun := delete_orphaned_run projRun.1 rest
    (restRun.1, projRun.2 ++ restRun.2)

/-- `delete_all_assessors(xnat, proj, subject)` (source lines 76-91): delete the
assessors of one subject.  Defined by the script but never invoked from its
`__main__` block. -/
def delete_all_assessors_run (x : Xnat) (proj subject : String) : Xnat × List Bool :=
  delete_assessors_run x
    ((list_project_assessors x.assessors proj).filter
      (fun a => decide (a.subject_label = subject)))

/-- Default value of the module-level `PROJECTS` list (source line 24). -/
def defaultProjects : List String := ["CIBS_COPE", "CIBS_BRAIN2"]

/-- The `__main__` dispatch (source lines 118-137).  `argparse` with `nargs`
one-or-more yields `None` or a non-empty list for each flag, and Python
truthiness treats `None` and `[]` alike as falsy.  When `SUBJECTS` is truthy
the script prints a banner and nothing else — no deletion function is called;
otherwise it calls `delete_orphaned_assessors`. -/
def script_main (x : Xnat) (projectsArg subjectsArg : Option (List String)) :
    Xnat × List Bool :=
  let projects := match projectsArg with
    | some ps => if ps.isEmpty then defaultProjects else ps
    | none => defaultProjects
  let subjects := match subjectsArg with
    | some ss => if ss.isEmpty then (none : Option (List String)) else some ss
    | none => none
  match subjects with
  | some _ => (x, [])
  | none => delete_orphaned_run x projects

/-- A concrete archive record of subject VCP-002 in project CIBS_COPE, with a
well-formed four-token label agreeing with its fields. -/
def vcpAssessor : Assessor :=
  ⟨"CIBS_COPE", "VCP-002", "VCP-002-sess", "CIBS_COPE-x-VCP-002-x-VCP-002-sess-x-FS6"⟩

/-- A concrete archive holding exactly `vcpAssessor`, with no pending timeout. -/
def xnat0 : Xnat := ⟨[vcpAssessor], 0⟩

end Cleanup

namespace Overlay

/-- Characters of `pat` occurring contiguously inside `l`: model of the Python
substring test `pat in f`. -/
def hasSubL (pat : List Char) : List Char → Bool
  | [] => pat.isEmpty
  | c :: rest => pat.isPrefixOf (c :: rest) || hasSubL pat rest

/-- The Python test `"seg" in f` used to classify a matched file (line 201). -/
def containsSeg (s : String) : Bool := hasSubL ("seg".toList) s.toList

/-- The Python test `x[0].isdigit()` (line 184); `os.listdir` never yields an
empty name, so the empty case is unreachable on real inputs. -/
def startsWithDigit (s : String) : Bool :=
  match s.toList with
  | [] => false
  | c :: _ => c.isDigit

/-- Characters before the first hyphen: Python `x.split("-")[0]`. -/
def takeUntilDash : List Char → List Char
  | [] => []
  | c :: rest => if c = '-' then [] else c :: takeUntilDash rest

/-- `x.split("-")[0]` (line 185). -/
def scanIdOf (entryName : String) : String :=
  String.mk (takeUntilDash entryName.toList)

/-- One session directory as `process_all` sees it: its path, the entries that
`os.listdir` returns for it, and for each scan id the files that the glob
pattern `*{scan_id}*/NIFTI/*.nii.gz` matches under it. -/
structure SessionDir where
  name : String
  entries : List String
  glob : String → List String

/-- The scan ids `process_all` derives for a session (lines 184-185): entries
whose name starts with a digit, each cut at the first hyphen. -/
def scanIdsOf (d : SessionDir) : List String :=
  (d.entries.filter startsWithDigit).map scanIdOf

/-- The observable actions of `process_all`: a glob issued for a scan id, the
warning print for a bad match count, and a call of
`save_t1_slices_and_labels` with the two classified paths. -/
inductive PEvent where
  | globbed (dir scanId : String)
  | warned (dir : String) (count : Nat)
  | extracted (mri seg : String)
  deriving DecidableEq

/-- The classification loop over the matched files (lines 200-204): a file
containing `seg` becomes the segmentation path, any other the MRI path, later
files overwriting earlier ones.  `mri_path` and `seg_path` are ordinary Python
locals that survive from one outer-loop iteration to the next, which the two
threaded `Option` values reproduce (`none` = still unbound). -/
def classifyFiles : Option String → Option String → List String →
    Option String × Option String
  | mv, sv, [] => (mv, sv)
  | mv, sv, f :: rest =>
    if containsSeg f then classifyFiles mv (some f) rest
    else classifyFiles (some f) sv rest

/-- Result of one outer-loop iteration of `process_all`. -/
structure DirStep where
  events : List PEvent
  mriVar : Option String
  segVar : Option String
  crashed : Bool

/-- One outer-loop iteration of `process_all` (source lines 180-208).  The
match-count check of line 194 stands OUTSIDE the `for scan_id in scan_ids`
loop, so it sees only the glob result of the LAST scan id, and at most one
extraction happens per session.  `crashed` records a `NameError`: the call of
line 206 evaluates `mri_path` and `seg_path`, and crashes when either local is
still unbound. -/
def processDir (mv sv : Option String) (d : SessionDir) : DirStep :=
  let sids := scanIdsOf d
  if sids.isEmpty then ⟨[], mv, sv, false⟩
  else
    let globEvents := sids.map (fun sid => PEvent.globbed d.name sid)
    let matching := d.glob (sids.getLastD "")
    if matching.length = 0 ∨ 2 < matching.length then
      ⟨globEvents ++ [PEvent.warned d.name matching.length], mv, sv, false⟩
    else
      let cls := classifyFiles mv sv matching
      match cls.1, cls.2 with
      | some m, some s => ⟨globEvents ++ [PEvent.extracted m s], some m, some s, false⟩
      | m, s => ⟨globEvents, m, s, true⟩

/-- The outer loop of `process_all` with the two locals threaded through; an
uncaught `NameError` aborts the whole run. -/
def process_all_go (mv sv : Option String) : List SessionDir → List PEvent × Bool
  | [] => ([], false)
  | d :: rest =>
    let r := processDir mv sv d
    if r.crashed then (r.events, true)
    else
      let restRun := process_all_go r.mriVar r.segVar rest
      (r.events ++ restRun.1, restRun.2)

/-- `process_all(directory_list, ...)` (source lines 169-208): the emitted
events and whether the run aborted with a `NameError`. -/
def process_all_run (dirs : List SessionDir) : List PEvent × Bool :=
  process_all_go none none dirs

/-- A session holding two scans. Scan `1` matches exactly an MRI volume and a
segmentation volume; scan `2` matches nothing. -/
def dirA : SessionDir :=
  { name := "sess1"
    entries := ["1-T1W", "2-FLAIR"]
    glob := fun sid =>
      if sid = "1" then
        ["sess1/1-T1W/NIFTI/t1.nii.gz", "sess1/1-T1W/NIFTI/t1_seg.nii.gz"]
      else [] }

/-- A session whose single scan matches exactly one file, an MRI volume with no
segmentation naming marker. -/
def dirB : SessionDir :=
  { name := "sess2"
    entries := ["5-T1W"]
    glob := fun sid => if sid = "5" then ["sess2/5-T1W/NIFTI/t1.nii.gz"] else [] }

/-- A 3D volume of integer segmentation labels: its shape and its voxel data
(per the data model, segmentation voxels are integer label values). -/
structure Volume where
  d0 : Nat
  d1 : Nat
  d2 : Nat
  voxel : Nat → Nat → Nat → Int

/-- The values of the 2D plane extracted at index `i` along axis `view`
(sagittal = 0, coronal = 1, axial = 2), flattened.  The `np.rot90` display
rotations permute pixel positions only and do not change the value multiset,
so they are irrelevant to the label computation modelled here. -/
def planeVals (v : Volume) (view i : Nat) : List Int :=
  match view with
  | 0 => (List.range v.d1).flatMap (fun y => (List.range v.d2).map (fun z => v.voxel i y z))
  | 1 => (List.range v.d0).flatMap (fun x => (List.range v.d2).map (fun z => v.voxel x i z))
  | _ => (List.range v.d0).flatMap (fun x => (List.range v.d1).map (fun y => v.voxel x y i))

/-- Distinct values of a list, keeping one copy of each. -/
def dedupInts : List Int → List Int
  | [] => []
  | x :: xs =>
    let r := dedupInts xs
    if x ∈ r then r else x :: r

/-- Insertion into a sorted list. -/
def insertSorted (x : Int) : List Int → List Int
  | [] => [x]
  | y :: ys => if x ≤ y then x :: y :: ys else y :: insertSorted x ys

/-- Insertion sort. -/
def sortInts (l : List Int) : List Int := l.foldr insertSorted []

/-- Model of `np.unique`: the sorted list of distinct values. -/
def npUnique (l : List Int) : List Int := sortInts (dedupInts l)

/-- `labels = [int(x) for x in slice_labels[slice_labels > 0]]` (lines 297-308):
the distinct nonzero (strictly positive) values of the segmentation plane. -/
def sliceLabels (seg : Volume) (view i : Nat) : List Int :=
  (npUnique (planeVals seg view i)).filter (fun v => decide (0 < v))

/-- The label catalog built by `create_dict_from_csv`: a read-only mapping from
integer label index to label name; `none` models a missing key, on which the
Python dictionary lookup raises `KeyError`. -/
def resolveLabels (cat : Int → Option String) : List Int → Option (List String)
  | [] => some []
  | v :: vs =>
    match cat v, resolveLabels cat vs with
    | some s, some rest => some (s :: rest)
    | _, _ => none

/-- A file written for one slice: the MRI raster image, the segmentation raster
image (`_SEGMENT` suffix), or the label sidecar text file with its lines. -/
inductive SliceFile where
  | image (view i : Nat)
  | segImage (view i : Nat)
  | sidecar (view i : Nat) (lines : List String)
  deriving DecidableEq

/-- The per-slice body of `save_t1_slices_and_labels` (source lines 282-328) at
plane `view`, index `i`: if the distinct nonzero label set of the segmentation
plane is empty the slice is discarded and nothing is written; otherwise the MRI
image and the segmentation image are saved, and then — when label saving is on —
every label value is resolved through the catalog and the resulting lines are
written as the sidecar.  A value absent from the catalog raises an uncaught
`KeyError` AFTER both images were saved and before the sidecar exists, which the
`true` crash flag records. -/
def extractSlice (cat : Int → Option String) (seg : Volume) (saveLabels : Bool)
    (view i : Nat) : List SliceFile × Bool :=
  let labels := sliceLabels seg view i
  if labels.isEmpty then ([], false)
  else
    if saveLabels then
      match resolveLabels cat labels with
      | some lines =>
        ([SliceFile.image view i, SliceFile.segImage view i,
          SliceFile.sidecar view i lines], false)
      | none => ([SliceFile.image view i, SliceFile.segImage view i], true)
    else ([SliceFile.image view i, SliceFile.segImage view i], false)

/-- The catalog holding the single row `("Left-Hippocampus", "17")`. -/
def catAll : Int → Option String :=
  fun v => if v = 17 then some "Left-Hippocampus" else none

/-- A one-voxel segmentation volume whose value is the catalogued label 17. -/
def vol17 : Volume := ⟨1, 1, 1, fun _ _ _ => 17⟩

/-- A one-voxel segmentation volume whose value 99 has no catalog entry. -/
def vol99 : Volume := ⟨1, 1, 1, fun _ _ _ => 99⟩

/-- A one-voxel segmentation volume whose value 7 has no catalog entry. -/
def vol7 : Volume := ⟨1, 1, 1, fun _ _ _ => 7⟩

/-- Characters before the first slash. -/
def takeUntilSlash : List Char → List Char
  | [] => []
  | c :: rest => if c = '/' then [] else c :: takeUntilSlash rest

/-- `os.path.basename` for slash-separated paths. -/
def basename (s : String) : String :=
  String.mk (takeUntilSlash s.toList.reverse).reverse

/-- Leading-whitespace removal. -/
def dropWhileWs : List Char → List Char
  | [] => []
  | c :: rest => if c.isWhitespace then dropWhileWs rest else c :: rest

/-- Python `str.strip()`: whitespace removed from both ends. -/
def pyStrip (s : String) : String :=
  String.mk ((dropWhileWs ((dropWhileWs s.toList).reverse)).reverse)

/-- One line of the JSONL manifest: the image's base name and its label list. -/
structure HfRecord where
  file_name : String
  text : List String
  deriving DecidableEq

/-- The observable outcome of `create_hf_dataset`: the manifest records written,
the base names of the images copied into the output directory, and whether the
run aborted (a missing sidecar raises an uncaught `FileNotFoundError`). -/
structure HfRun where
  manifest : List HfRecord
  copied : List String
  crashed : Bool
  deriving DecidableEq

/-- `create_hf_dataset(image_files, output_dir, ...)` (source lines 116-145)
over a filesystem model: `sidecars` maps an image path to the raw lines of its
companion `.txt` file (`none` when the file is absent).  Per image, in input
order: read the sidecar (abort if missing), append the record with the stripped
lines, then copy the image into the output directory. -/
def create_hf_dataset (sidecars : String → Option (List String)) :
    List String → HfRun
  | [] => ⟨[], [], false⟩
  | f :: rest =>
    match sidecars f with
    | none => ⟨[], [], true⟩
    | some rawLines =>
      let r := create_hf_dataset sidecars rest
      ⟨⟨basename f, rawLines.map pyStrip⟩ :: r.manifest,
       basename f :: r.copied, r.crashed⟩

/-- A concrete image path for the manifest round trip. -/
def hfImg : String := "slice_data/cb2_sub1_301_axial_120.png"

/-- A concrete filesystem: `hfImg` has a sidecar with two unstripped lines. -/
def hfSidecars : String → Option (List String) :=
  fun f => if f = hfImg then some ["Left-Hippocampus\n", " 3rd-Ventricle\n"] else none

/-- The manifest record expected for `hfImg`. -/
def hfEntry : HfRecord :=
  ⟨"cb2_sub1_301_axial_120.png", ["Left-Hippocampus", "3rd-Ventricle"]⟩

end Overlay

namespace Cleanup

/-- The archive state a `delete_assessor` call leaves behind is the one of the
final, timeout-free attempt: every retry level just forwards it. -/
theorem deleteAssessorGo_fst (t : Nat) (st : List Assessor) (p s e l : String) :
    (deleteAssessorGo t st p s e l).1 = (deleteAssessorGo 0 st p s e l).1 := by
  induction t with
  | zero => rfl
  | succ n ih => simpa [deleteAssessorGo] using ih

/-- Multiplicity of an element in a filtered list. -/
theorem count_filter_eq (p : Assessor → Bool) (a : Assessor) (l : List Assessor) :
    (l.filter p).count a = if p a then l.count a else 0 := by
  induction l with
  | nil => simp
  | cons b bs ih =>
    by_cases hb : p b
    · rw [List.filter_cons_of_pos hb]
      by_cases hab : a = b
      · subst hab
        simp [List.count_cons_self, ih, hb]
      · rw [List.count_cons_of_ne hab, List.count_cons_of_ne hab, ih]
    · rw [List.filter_cons_of_neg hb]
      by_cases hab : a = b
      · subst hab
        simp [ih, hb]
      · rw [List.count_cons_of_ne hab, ih]

/-- Claim C1: contrary to the claim, a run with a non-empty `--subjects` list
deletes nothing.  Invoked as `--projects CIBS_COPE --subjects VCP-002` against
an archive that stores an assessor of subject VCP-002 in CIBS_COPE, the script
leaves the archive unchanged and produces no per-item deletion report, because
the subject branch of `__main__` only prints a banner and never calls
`delete_all_assessors` — which, had it been called (second conjunct), would
have deleted that assessor. -/
theorem subject_mode_deletes_nothing :
    script_main xnat0 (some ["CIBS_COPE"]) (some ["VCP-002"]) = (xnat0, []) ∧
    (delete_all_assessors_run xnat0 "CIBS_COPE" "VCP-002").1.assessors = [] := by
  decide

/-- Claim C4: with no pending timeout, `delete_assessor` applied to a four-part
key returns Python `False` and leaves the archive untouched when no stored
record matches the key, and returns Python `True` with the matching records
removed (all others kept) when one does. -/
theorem delete_assessor_key_contract (st : List Assessor) (p s e l : String) :
    (select_exists st p s e l = false →
      delete_assessor ⟨st, 0⟩ p s e l = (⟨st, 0⟩, some false)) ∧
    (select_exists st p s e l = true →
      (delete_assessor ⟨st, 0⟩ p s e l).2 = some true ∧
      (∀ a, a ∈ (delete_assessor ⟨st, 0⟩ p s e l).1.assessors ↔
        (a ∈ st ∧ matchesKey a p s e l = false))) := by
  constructor
  · intro h
    simp [delete_assessor, deleteAssessorGo, h]
  · intro h
    refine ⟨by simp [delete_assessor, deleteAssessorGo, h], ?_⟩
    intro a
    simp [delete_assessor, deleteAssessorGo, h, List.mem_filter]

/-- Claim C4 witness: an absent key on the empty archive reports `False` with
no change; the key of the stored record reports `True`. -/
theorem delete_assessor_key_contract_witness :
    delete_assessor ⟨[], 0⟩ "P" "S" "E" "L" = (⟨[], 0⟩, some false) ∧
    (delete_assessor ⟨[vcpAssessor], 0⟩ "CIBS_COPE" "VCP-002" "VCP-002-sess"
      "CIBS_COPE-x-VCP-002-x-VCP-002-sess-x-FS6").2 = some true :=
  ⟨(delete_assessor_key_contract [] "P" "S" "E" "L").1 (by decide),
   ((delete_assessor_key_contract [vcpAssessor] "CIBS_COPE" "VCP-002" "VCP-002-sess"
      "CIBS_COPE-x-VCP-002-x-VCP-002-sess-x-FS6").2 (by decide)).1⟩

/-- Claim C5: the subject-mismatch subset holds exactly the assessors whose
`subject_label` differs from the second `-x-`-delimited token of their own
label, the session-mismatch subset exactly those differing at the third token,
the delete candidate list is their literal concatenation, and every assessor
occurs in it with multiplicity (occurrences in the subject subset) plus
(occurrences in the session subset): twice per archive occurrence when both
checks fail, once — contributed by the subject subset alone — when only the
subject check fails. -/
theorem orphan_candidates_exact (l : List Assessor) :
    (∀ a, a ∈ subj_delete l ↔ (a ∈ l ∧ tokenAt a 1 ≠ some a.subject_label)) ∧
    (∀ a, a ∈ sess_delete l ↔ (a ∈ l ∧ tokenAt a 2 ≠ some a.session_label)) ∧
    orphan_candidates l = subj_delete l ++ sess_delete l ∧
    (∀ a, (orphan_candidates l).count a =
      (if subjMismatch a then l.count a else 0) +
      (if sessMismatch a then l.count a else 0)) := by
  refine ⟨?_, ?_, rfl, ?_⟩
  · intro a
    simp [subj_delete, List.mem_filter, subjMismatch]
  · intro a
    simp [sess_delete, List.mem_filter, sessMismatch]
  · intro a
    rw [orphan_candidates, List.count_append, subj_delete, sess_delete,
      count_filter_eq, count_filter_eq]

/-- Claim C6: when the lookup hits at least one `ReadTimeout`, the value of the
recursive retry is discarded and `delete_assessor` returns Python `None`
(`none`), so the batch loop reports the item as `Failed to delete` — even
though, the assessor being present, the retried deletion actually removed it
from the archive (third conjunct). -/
theorem timeout_retry_result_discarded (st : List Assessor) (t : Nat) (a : Assessor)
    (hex : select_exists st a.project_id a.subject_label a.session_label a.label = true) :
    (delete_assessor ⟨st, t + 1⟩ a.project_id a.subject_label a.session_label a.label).2
      = none ∧
    (delete_assessors_run ⟨st, t + 1⟩ [a]).2 = [false] ∧
    (∀ b, b ∈ (delete_assessors_run ⟨st, t + 1⟩ [a]).1.assessors ↔
      (b ∈ st ∧
        matchesKey b a.project_id a.subject_label a.session_label a.label = false)) := by
  refine ⟨by simp [delete_assessor, deleteAssessorGo], ?_, ?_⟩
  · simp [delete_assessors_run, delete_assessor, deleteAssessorGo]
  · intro b
    simp only [delete_assessors_run, delete_assessor, deleteAssessorGo]
    rw [deleteAssessorGo_fst]
    simp [deleteAssessorGo, hex, List.mem_filter]

/-- Claim C6 witness: one pending timeout, a stored assessor addressed by its
own key: the call returns `none`, the batch reports failure, and the archive
no longer holds the assessor. -/
theorem timeout_retry_result_discarded_witness :
    (delete_assessor ⟨[vcpAssessor], 0 + 1⟩ vcpAssessor.project_id vcpAssessor.subject_label
      vcpAssessor.session_label vcpAssessor.label).2 = none ∧
    (delete_assessors_run ⟨[vcpAssessor], 0 + 1⟩ [vcpAssessor]).2 = [false] ∧
    (∀ b, b ∈ (delete_assessors_run ⟨[vcpAssessor], 0 + 1⟩ [vcpAssessor]).1.assessors ↔
      (b ∈ [vcpAssessor] ∧
        matchesKey b vcpAssessor.project_id vcpAssessor.subject_label
          vcpAssessor.session_label vcpAssessor.label = false)) :=
  timeout_retry_result_discarded [vcpAssessor] 0 vcpAssessor (by decide)

end Cleanup

namespace Overlay

/-- Claim C2: contrary to the claim, the match-count check is applied once per
session, to the last scan only.  On a session with two scans — scan `1`
matching exactly an MRI/segmentation pair, scan `2` matching nothing — the run
globs both scans, warns once with the LAST scan's count, and never extracts
scan `1`: the event list holds the two globs and one warning and no
extraction. -/
theorem process_all_checks_only_last_scan :
    process_all_run [dirA] =
      ([PEvent.globbed "sess1" "1", PEvent.globbed "sess1" "2",
        PEvent.warned "sess1" 0], false) := by
  decide

/-- Claim C3: contrary to the claim, a session whose single matched file is an
MRI volume with no segmentation naming marker does not fail gracefully: the
extraction call is reached with `seg_path` still unbound and the run aborts
with a `NameError` (crash flag `true`), after the glob and with no warning and
no extraction event. -/
theorem process_all_crashes_without_segmentation :
    process_all_run [dirB] = ([PEvent.globbed "sess2" "5"], true) := by
  decide

theorem insertSorted_perm (x : Int) (l : List Int) :
    List.Perm (insertSorted x l) (x :: l) := by
  induction l with
  | nil => simp [insertSorted]
  | cons y ys ih =>
    by_cases h : x ≤ y
    · simp [insertSorted, h]
    · rw [insertSorted, if_neg h]
      exact (ih.cons y).trans (List.Perm.swap x y ys)

theorem sortInts_perm (l : List Int) : List.Perm (sortInts l) l := by
  induction l with
  | nil => rfl
  | cons x xs ih =>
    exact (insertSorted_perm x (sortInts xs)).trans (ih.cons x)

theorem mem_dedupInts {a : Int} {l : List Int} : a ∈ dedupInts l ↔ a ∈ l := by
  induction l with
  | nil => simp [dedupInts]
  | cons x xs ih =>
    simp only [dedupInts]
    by_cases h : x ∈ dedupInts xs
    · rw [if_pos h]
      constructor
      · intro ha; exact List.mem_cons_of_mem x (ih.mp ha)
      · intro ha
        rcases List.mem_cons.mp ha with h1 | h1
        · subst h1; exact h
        · exact ih.mpr h1
    · rw [if_neg h]
      simp [ih]

theorem dedupInts_nodup (l : List Int) : (dedupInts l).Nodup := by
  induction l with
  | nil => simp [dedupInts]
  | cons x xs ih =>
    simp only [dedupInts]
    by_cases h : x ∈ dedupInts xs
    · rw [if_pos h]; exact ih
    · rw [if_neg h]; exact List.Nodup.cons h ih

theorem npUnique_perm (l : List Int) : List.Perm (npUnique l) (dedupInts l) :=
  sortInts_perm (dedupInts l)

theorem mem_npUnique {a : Int} {l : List Int} : a ∈ npUnique l ↔ a ∈ l :=
  ((npUnique_perm l).mem_iff).trans mem_dedupInts

theorem npUnique_nodup (l : List Int) : (npUnique l).Nodup :=
  ((npUnique_perm l).nodup_iff).mpr (dedupInts_nodup l)

theorem sliceLabels_nodup (seg : Volume) (view i : Nat) :
    (sliceLabels seg view i).Nodup :=
  (npUnique_nodup (planeVals seg view i)).filter _

theorem mem_sliceLabels {v : Int} {seg : Volume} {view i : Nat} :
    v ∈ sliceLabels seg view i ↔ (v ∈ planeVals seg view i ∧ 0 < v) := by
  simp [sliceLabels, List.mem_filter, mem_npUnique]

theorem resolveLabels_eq_map (cat : Int → Option String) (l : List Int)
    (h : ∀ v ∈ l, (cat v).isSome = true) :
    resolveLabels cat l = some (l.map (fun v => (cat v).getD "")) := by
  induction l with
  | nil => rfl
  | cons v vs ih =>
    have hv : (cat v).isSome = true := h v (List.mem_cons_self v vs)
    rcases Option.isSome_iff_exists.mp hv with ⟨s, hs⟩
    have hrest := ih (fun w hw => h w (List.mem_cons_of_mem v hw))
    simp [resolveLabels, hs, hrest]

theorem extractSlice_of_empty (cat : Int → Option String) (seg : Volume) (b : Bool)
    (view i : Nat) (h : sliceLabels seg view i = []) :
    extractSlice cat seg b view i = ([], false) := by
  simp [extractSlice, h]

theorem extractSlice_of_resolved (cat : Int → Option String) (seg : Volume)
    (view i : Nat) (hne : sliceLabels seg view i ≠ [])
    (h : ∀ v ∈ sliceLabels seg view i, (cat v).isSome = true) :
    extractSlice cat seg true view i =
      ([SliceFile.image view i, SliceFile.segImage view i,
        SliceFile.sidecar view i
          ((sliceLabels seg view i).map (fun v => (cat v).getD ""))], false) := by
  have hE : (sliceLabels seg view i).isEmpty = false := by
    simpa [List.isEmpty_iff] using hne
  simp [extractSlice, hE, resolveLabels_eq_map cat _ h]

/-- Claim C7: for any plane and index whose distinct nonzero segmentation
values all have catalog entries: when that value set is empty no file at all is
written for the slice, and otherwise the MRI image, the segmentation image and
the sidecar are written, the sidecar carrying exactly one line per distinct
nonzero value, each line the catalog's name for its value — the label list
being duplicate-free and holding precisely the nonzero values present in the
plane. -/
theorem extract_slice_sidecar (cat : Int → Option String) (seg : Volume) (view i : Nat)
    (hres : ∀ v ∈ sliceLabels seg view i, (cat v).isSome = true) :
    (sliceLabels seg view i = [] → extractSlice cat seg true view i = ([], false)) ∧
    (sliceLabels seg view i ≠ [] →
      extractSlice cat seg true view i =
        ([SliceFile.image view i, SliceFile.segImage view i,
          SliceFile.sidecar view i
            ((sliceLabels seg view i).map (fun v => (cat v).getD ""))], false)) ∧
    (sliceLabels seg view i).Nodup ∧
    (∀ v, v ∈ sliceLabels seg view i ↔ (v ∈ planeVals seg view i ∧ 0 < v)) := by
  refine ⟨fun h => extractSlice_of_empty cat seg true view i h,
    fun hne => extractSlice_of_resolved cat seg view i hne hres,
    sliceLabels_nodup seg view i, fun v => mem_sliceLabels⟩

/-- Claim C7 witness: the catalog row `("Left-Hippocampus", "17")` and a slice
containing value 17 yield a sidecar whose single line is `Left-Hippocampus`. -/
theorem extract_slice_sidecar_witness :
    ((sliceLabels vol17 0 0 = [] → extractSlice catAll vol17 true 0 0 = ([], false)) ∧
     (sliceLabels vol17 0 0 ≠ [] →
       extractSlice catAll vol17 true 0 0 =
         ([SliceFile.image 0 0, SliceFile.segImage 0 0,
           SliceFile.sidecar 0 0
             ((sliceLabels vol17 0 0).map (fun v => (catAll v).getD ""))], false)) ∧
     (sliceLabels vol17 0 0).Nodup ∧
     (∀ v, v ∈ sliceLabels vol17 0 0 ↔ (v ∈ planeVals vol17 0 0 ∧ 0 < v))) ∧
    extractSlice catAll vol17 true 0 0 =
      ([SliceFile.image 0 0, SliceFile.segImage 0 0,
        SliceFile.sidecar 0 0 ["Left-Hippocampus"]], false) :=
  ⟨extract_slice_sidecar catAll vol17 0 0 (by decide), by decide⟩

/-- Claim C8: contrary to the claim, a slice containing the uncatalogued value
7 does not fail with a typed, recoverable per-slice error: both raster images
are saved and then the label lookup raises an uncaught `KeyError` that aborts
the process (crash flag `true`), leaving no sidecar. -/
theorem unknown_label_crashes :
    extractSlice catAll vol7 true 1 0 =
      ([SliceFile.image 1 0, SliceFile.segImage 1 0], true) := by
  decide

/-- Claim C9 (amended): for a slice all of whose distinct nonzero segmentation
values have catalog entries, the slice's image and its label sidecar are
written together or not at all: a sidecar exists among the written files
exactly when the image does. -/
theorem extract_slice_atomic (cat : Int → Option String) (seg : Volume) (view i : Nat)
    (hres : ∀ v ∈ sliceLabels seg view i, (cat v).isSome = true) :
    ((∃ lines, SliceFile.sidecar view i lines ∈ (extractSlice cat seg true view i).1) ↔
      SliceFile.image view i ∈ (extractSlice cat seg true view i).1) := by
  by_cases h : sliceLabels seg view i = []
  · rw [extractSlice_of_empty cat seg true view i h]
    simp
  · rw [extractSlice_of_resolved cat seg view i h hres]
    simp

/-- Claim C9 witness: on the fully catalogued one-voxel slice of value 17 the
equivalence holds with both sides true. -/
theorem extract_slice_atomic_witness :
    ((∃ lines, SliceFile.sidecar 0 0 lines ∈ (extractSlice catAll vol17 true 0 0).1) ↔
      SliceFile.image 0 0 ∈ (extractSlice catAll vol17 true 0 0).1) :=
  extract_slice_atomic catAll vol17 0 0 (by decide)

/-- Claim C9 counterexample: a slice containing the uncatalogued value 99 ends
with exactly the two raster images written and the run crashed — the image is
among the written files and no sidecar is, refuting the claim as stated. -/
theorem image_without_sidecar_cex :
    extractSlice catAll vol99 true 0 0 =
      ([SliceFile.image 0 0, SliceFile.segImage 0 0], true) ∧
    SliceFile.image 0 0 ∈ (extractSlice catAll vol99 true 0 0).1 := by
  decide

/-- Claim C10: every record of the manifest written by `create_hf_dataset`
names an image that the same run copied into the output directory, and its
`text` list equals, in order, the stripped lines of that image's sidecar
file. -/
theorem hf_manifest_round_trip (sidecars : String → Option (List String))
    (files : List String) (entry : HfRecord)
    (h : entry ∈ (create_hf_dataset sidecars files).manifest) :
    entry.file_name ∈ (create_hf_dataset sidecars files).copied ∧
    ∃ f, f ∈ files ∧ basename f = entry.file_name ∧
      ∃ raw, sidecars f = some raw ∧ entry.text = raw.map pyStrip := by
  induction files with
  | nil => simp [create_hf_dataset] at h
  | cons f rest ih =>
    cases hc : sidecars f with
    | none => rw [create_hf_dataset, hc] at h; simp at h
    | some raw =>
      rw [create_hf_dataset, hc] at h
      simp only [List.mem_cons] at h
      rcases h with h1 | h1
      · subst h1
        refine ⟨?_, f, List.mem_cons_self f rest, rfl, raw, hc, rfl⟩
        rw [create_hf_dataset, hc]
        exact List.mem_cons_self _ _
      · rcases ih h1 with ⟨hcopied, f2, hf2, hb, raw2, hs2, ht2⟩
        refine ⟨?_, f2, List.mem_cons_of_mem f hf2, hb, raw2, hs2, ht2⟩
        rw [create_hf_dataset, hc]
        exact List.mem_cons_of_mem _ hcopied

/-- Claim C10 witness: a run over the single image `hfImg`, whose sidecar holds
two unstripped lines, yields the record `hfEntry`, whose file name was copied
and whose text is the stripped lines in order. -/
theorem hf_manifest_round_trip_witness :
    hfEntry.file_name ∈ (create_hf_dataset hfSidecars [hfImg]).copied ∧
    ∃ f, f ∈ [hfImg] ∧ basename f = hfEntry.file_name ∧
      ∃ raw, hfSidecars f = some raw ∧ hfEntry.text = raw.map pyStrip :=
  hf_manifest_round_trip hfSidecars [hfImg] hfEntry (by decide)

end Overlay
